import Mathlib

/-!
Verification of the fuel-depot digital twin core against its design notes.

The definitions below are shallow embeddings of the Python sources:
  data/database.py                 (alert persistence, calculated-data upsert)
  data/db_models.py                (row shapes)
  alerting_service/alerting_service.py   (batch alert cycle)
  processing_service.py            (ingestion-path alert evaluator)
  core/calculations.py             (table 54B density / VCF engine)
  utils/volume_calculator.py       (strapping interpolation, simplified VCF)
  calculation_service/calculation_service.py (per-tank orchestrator)
  core/physics/mass_balance.py     (mass balance, transfer reconciliation)
  core/physics/energy_balance.py   (heat content)

Python floats and Decimals are modelled as rationals; timestamps as integers
(UTC seconds).  String formatting of alert messages is not modelled: the
message argument carries the template text unchanged.
-/

namespace DigitalTwin

/-! ## Alert rows and persistence (data/db_models.py, data/database.py) -/

/-- Status column of the alerts table; the code writes the literals
Active and Resolved. -/
inductive AlertStatus where
  | Active
  | Resolved
deriving DecidableEq, Repr

/-- Row of the alerts table (db_models.Alert); details column omitted,
timestamps are integer seconds. -/
structure Alert where
  asset_id : String
  alert_name : String
  message : String
  severity : String
  status : AlertStatus
  triggered_at : Int
  resolved_at : Option Int
deriving DecidableEq, Repr

/-- Filter used by save_alert and resolve_alerts_for_condition:
filter_by(asset_id=..., alert_name=..., status=Active). -/
def alertMatchesActive (aid an : String) (a : Alert) : Bool :=
  decide (a.asset_id = aid ∧ a.alert_name = an ∧ a.status = AlertStatus.Active)

/-- database.save_alert: if an identical active alert already exists, return
without inserting; otherwise insert a fresh Active row. -/
def save_alert (db : List Alert) (aid an msg sev : String) (now : Int) :
    List Alert :=
  if db.any (alertMatchesActive aid an) then db
  else db ++ [⟨aid, an, msg, sev, AlertStatus.Active, now, none⟩]

/-- database.resolve_alerts_for_condition: update all matching Active rows to
Resolved and stamp resolved_at. -/
def resolve_alerts_for_condition (db : List Alert) (aid an : String)
    (now : Int) : List Alert :=
  db.map (fun a =>
    if alertMatchesActive aid an a then
      { a with status := AlertStatus.Resolved, resolved_at := some now }
    else a)

/-- The core alert invariant: no two rows of the table are simultaneously
Active for the same (asset_id, alert_name) pair. -/
def atMostOneActive (db : List Alert) : Prop :=
  db.Pairwise (fun a b =>
    ¬(a.asset_id = b.asset_id ∧ a.alert_name = b.alert_name ∧
      a.status = AlertStatus.Active ∧ b.status = AlertStatus.Active))

lemma save_alert_of_exists (db : List Alert) (aid an msg sev : String)
    (now : Int) (h : db.any (alertMatchesActive aid an) = true) :
    save_alert db aid an msg sev now = db := by
  simp [save_alert, h]

lemma atMostOneActive_save_alert (db : List Alert) (aid an msg sev : String)
    (now : Int) (h : atMostOneActive db) :
    atMostOneActive (save_alert db aid an msg sev now) := by
  unfold save_alert
  by_cases hx : db.any (alertMatchesActive aid an) = true
  · simpa [hx] using h
  · have hno : ∀ a ∈ db, alertMatchesActive aid an a = false := by
      intro a ha
      by_contra hc
      exact hx (List.any_eq_true.mpr ⟨a, ha, by
        cases hb : alertMatchesActive aid an a with
        | true => rfl
        | false => exact absurd hb hc⟩)
    simp only [hx, if_false, Bool.false_eq_true]
    unfold atMostOneActive
    rw [List.pairwise_append]
    refine ⟨h, List.pairwise_singleton _ _, ?_⟩
    intro a ha b hb
    have hb' : b = ⟨aid, an, msg, sev, AlertStatus.Active, now, none⟩ := by
      simpa using hb
    subst hb'
    have := hno a ha
    simp only [alertMatchesActive, decide_eq_false_iff_not] at this
    intro hcon
    exact this ⟨hcon.1, hcon.2.1, hcon.2.2.1⟩

lemma atMostOneActive_resolve (db : List Alert) (aid an : String) (now : Int)
    (h : atMostOneActive db) :
    atMostOneActive (resolve_alerts_for_condition db aid an now) := by
  unfold resolve_alerts_for_condition atMostOneActive
  rw [List.pairwise_map]
  refine h.imp_of_mem ?_
  intro a b _ _ hab
  by_cases ha : alertMatchesActive aid an a = true
  · simp [ha]
  · by_cases hb : alertMatchesActive aid an b = true
    · simp [ha, hb]
    · simpa [ha, hb] using hab

/-- C1.  Opening an alert while an Active row with the same asset_id and
alert_name exists inserts no new row and leaves the table unchanged, and both
save_alert and resolve_alerts_for_condition preserve the invariant that at
most one Active row exists per (asset_id, alert_name) pair. -/
theorem C1_active_alert_unique :
    (∀ (db : List Alert) (aid an msg sev : String) (now : Int),
      db.any (alertMatchesActive aid an) = true →
      save_alert db aid an msg sev now = db) ∧
    (∀ (db : List Alert) (aid an msg sev : String) (now : Int),
      atMostOneActive db →
      atMostOneActive (save_alert db aid an msg sev now)) ∧
    (∀ (db : List Alert) (aid an : String) (now : Int),
      atMostOneActive db →
      atMostOneActive (resolve_alerts_for_condition db aid an now)) :=
  ⟨save_alert_of_exists, atMostOneActive_save_alert, atMostOneActive_resolve⟩

/-- Concrete instance of C1: a second trigger of TANK_LEVEL_HIGH on T1 while
the first alert is still Active inserts nothing. -/
theorem C1_active_alert_unique_witness :
    save_alert
      [⟨"T1", "TANK_LEVEL_HIGH", "m0", "Warning", AlertStatus.Active, 3, none⟩]
      "T1" "TANK_LEVEL_HIGH" "m1" "Warning" 7 =
      [⟨"T1", "TANK_LEVEL_HIGH", "m0", "Warning", AlertStatus.Active, 3, none⟩] ∧
    atMostOneActive
      (save_alert
        [⟨"T1", "TANK_LEVEL_HIGH", "m0", "Warning", AlertStatus.Active, 3, none⟩]
        "T1" "TANK_LEVEL_HIGH" "m1" "Warning" 7) ∧
    atMostOneActive
      (resolve_alerts_for_condition
        [⟨"T1", "TANK_LEVEL_HIGH", "m0", "Warning", AlertStatus.Active, 3, none⟩]
        "T1" "TANK_LEVEL_HIGH" 9) := by
  refine ⟨C1_active_alert_unique.1 _ _ _ _ _ _ (by decide),
    C1_active_alert_unique.2.1 _ _ _ _ _ _ ?_,
    C1_active_alert_unique.2.2 _ _ _ _ ?_⟩ <;>
    exact List.pairwise_singleton _ _

/-! ## Alert rules (db_models.AlertConfiguration.to_rule_dict)

A rule dict carries metric, condition, threshold, optional clear_threshold,
optional duration_seconds, alert_name, message_template and severity. -/

structure Rule where
  metric : String
  condition : String
  threshold : ℚ
  clear_threshold : Option ℚ
  duration_seconds : Option Nat
  alert_name : String
  message_template : String
  severity : String
deriving DecidableEq, Repr

/-! ## Batch alert evaluator (alerting_service.check_asset_against_rules) -/

/-- ASCII lowercasing of one character, as Python str.lower acts on the
condition strings appearing in this code base. -/
def charLower (c : Char) : Char :=
  if c.isUpper then Char.ofNat (c.toNat + 32) else c

/-- Python condition.lower() on the rule condition string. -/
def condLower (s : String) : String := String.mk (s.data.map charLower)

/-- Trigger test of alerting_service.check_asset_against_rules: after
lowercasing the condition it recognises only the four comparison symbols;
any other condition leaves is_triggered False. -/
def isTriggeredBatch (condition : String) (v threshold : ℚ) : Bool :=
  if condLower condition = ">" then decide (v > threshold)
  else if condLower condition = "<" then decide (v < threshold)
  else if condLower condition = ">=" then decide (threshold ≤ v)
  else if condLower condition = "<=" then decide (v ≤ threshold)
  else false

/-- One rule of the per-asset loop in
alerting_service.check_asset_against_rules: a missing reading skips the
rule; a triggered rule calls save_alert; otherwise all active alerts of
this name are resolved.  Message template substitution is not modelled. -/
def check_asset_against_rules_step (rule : Rule) (aid : String)
    (value : Option ℚ) (now : Int) (db : List Alert) : List Alert :=
  match value with
  | none => db
  | some v =>
    if isTriggeredBatch rule.condition v rule.threshold then
      save_alert db aid rule.alert_name rule.message_template rule.severity now
    else
      resolve_alerts_for_condition db aid rule.alert_name now

/-! ## Ingestion-path alert evaluator
(processing_service.check_and_process_asset_alerts) -/

/-- Trigger test of processing_service.check_and_process_asset_alerts.
Conditions gt, lt, gte, lte compare the float value numerically; eq and ne
compare str(value) to str(threshold), which on exact numeric values agrees
with numeric equality.  Any other condition never triggers. -/
def isTriggeredProc (condition : String) (v threshold : ℚ) : Bool :=
  if condition = "gt" then decide (v > threshold)
  else if condition = "lt" then decide (v < threshold)
  else if condition = "gte" then decide (threshold ≤ v)
  else if condition = "lte" then decide (v ≤ threshold)
  else if condition = "eq" then decide (v = threshold)
  else if condition = "ne" then decide (v ≠ threshold)
  else false

/-- Entry of potential_alerts_tracker for one (asset_id, alert_name) key. -/
structure TrackerEntry where
  first_seen : Int
  notified_active : Bool
  last_value : ℚ
deriving DecidableEq, Repr

/-- Debounce state for one (asset_id, alert_name) key together with the
persisted alert table. -/
structure AlertState where
  tracker : Option TrackerEntry
  db : List Alert
deriving DecidableEq, Repr

/-- Hysteresis test of the resolve branch: with a clear_threshold configured,
a gt or gte rule clears only below it and an lt or lte rule only above it;
without one, any non-trigger value clears. -/
def shouldResolveProc (rule : Rule) (v : ℚ) : Bool :=
  match rule.clear_threshold with
  | some c =>
      ((rule.condition = "gt" || rule.condition = "gte") && decide (v < c)) ||
      ((rule.condition = "lt" || rule.condition = "lte") && decide (c < v))
  | none => true

/-- Shared resolution block of check_and_process_asset_alerts: the tracker
entry is dropped, and the persisted alerts are resolved unless the entry
existed without having been notified active. -/
def resolveStepProc (rule : Rule) (aid : String) (now : Int)
    (st : AlertState) : AlertState :=
  match st.tracker with
  | some e =>
      { tracker := none,
        db := if e.notified_active then
            resolve_alerts_for_condition st.db aid rule.alert_name now
          else st.db }
  | none =>
      { tracker := none,
        db := resolve_alerts_for_condition st.db aid rule.alert_name now }

/-- One rule of processing_service.check_and_process_asset_alerts: a missing
metric value resolves and drops the candidate; a triggered duration-gated
rule first records a candidate, then opens the alert once the elapsed time
since first_seen reaches duration_seconds; a triggered ungated rule opens
immediately; a non-triggered value resolves only when shouldResolveProc
says so. -/
def check_and_process_asset_alerts_step (rule : Rule) (aid : String)
    (value : Option ℚ) (now : Int) (st : AlertState) : AlertState :=
  match value with
  | none => resolveStepProc rule aid now st
  | some v =>
    if isTriggeredProc rule.condition v rule.threshold then
      match rule.duration_seconds with
      | some d =>
        match st.tracker with
        | none => { tracker := some ⟨now, false, v⟩, db := st.db }
        | some e =>
          if e.notified_active then st
          else if (d : Int) ≤ now - e.first_seen then
            { tracker := some { e with notified_active := true },
              db := save_alert st.db aid rule.alert_name
                rule.message_template rule.severity now }
          else st
      | none =>
        { st with
            db := save_alert st.db aid rule.alert_name
              rule.message_template rule.severity now }
    else
      if shouldResolveProc rule v then resolveStepProc rule aid now st else st

/-- A sequence of evaluations of one rule on one asset, oldest first, each
carrying the wall-clock time and the metric value seen. -/
def runProcAlerts (rule : Rule) (aid : String)
    (evals : List (Int × Option ℚ)) (st : AlertState) : AlertState :=
  evals.foldl
    (fun s p => check_and_process_asset_alerts_step rule aid p.2 p.1 s) st

/-! ## C5: supported comparators -/

/-- C5 counterexample.  In the batch evaluator cited by the claim, an
equality comparison never triggers, under any of its plausible spellings,
even when the numeric comparison holds; and the ingestion evaluator does not
accept the comparator symbols at all. -/
theorem C5_counterexample :
    isTriggeredBatch "==" 5 5 = false ∧
    isTriggeredBatch "=" 5 5 = false ∧
    isTriggeredBatch "eq" 5 5 = false ∧
    isTriggeredProc "==" 5 5 = false ∧
    isTriggeredProc ">=" 92 90 = false ∧
    (5 : ℚ) = 5 ∧ (90 : ℚ) ≤ 92 := by
  decide

/-- C5 amended.  The batch evaluator supports exactly the four comparators
written as symbols (after lowercasing), each with its numeric meaning, and
triggers on nothing else; the ingestion evaluator supports exactly the six
word-form comparators gt, lt, gte, lte, eq, ne, each with its numeric
meaning (eq and ne via string rendering, which on exact values is numeric
equality). -/
theorem C5_amended :
    (∀ v t : ℚ,
      isTriggeredBatch ">" v t = decide (t < v) ∧
      isTriggeredBatch "<" v t = decide (v < t) ∧
      isTriggeredBatch ">=" v t = decide (t ≤ v) ∧
      isTriggeredBatch "<=" v t = decide (v ≤ t)) ∧
    (∀ (c : String) (v t : ℚ), isTriggeredBatch c v t = true →
      condLower c = ">" ∨ condLower c = "<" ∨
      condLower c = ">=" ∨ condLower c = "<=") ∧
    (∀ v t : ℚ,
      isTriggeredProc "gt" v t = decide (t < v) ∧
      isTriggeredProc "lt" v t = decide (v < t) ∧
      isTriggeredProc "gte" v t = decide (t ≤ v) ∧
      isTriggeredProc "lte" v t = decide (v ≤ t) ∧
      isTriggeredProc "eq" v t = decide (v = t) ∧
      isTriggeredProc "ne" v t = decide (v ≠ t)) ∧
    (∀ (c : String) (v t : ℚ), isTriggeredProc c v t = true →
      c = "gt" ∨ c = "lt" ∨ c = "gte" ∨ c = "lte" ∨ c = "eq" ∨ c = "ne") := by
  refine ⟨fun v t => ⟨rfl, rfl, rfl, rfl⟩, ?_,
    fun v t => ⟨rfl, rfl, rfl, rfl, rfl, rfl⟩, ?_⟩
  · intro c v t h
    unfold isTriggeredBatch at h
    split_ifs at h with h1 h2 h3 h4 <;> tauto
  · intro c v t h
    unfold isTriggeredProc at h
    split_ifs at h with h1 h2 h3 h4 h5 h6 <;> tauto

/-- Concrete instance of C5 amended: the two implication conjuncts applied
to triggering evaluations. -/
theorem C5_amended_witness :
    (condLower ">=" = ">" ∨ condLower ">=" = "<" ∨
      condLower ">=" = ">=" ∨ condLower ">=" = "<=") ∧
    ("gte" = "gt" ∨ "gte" = "lt" ∨ "gte" = "gte" ∨ "gte" = "lte" ∨
      "gte" = "eq" ∨ "gte" = "ne") :=
  ⟨C5_amended.2.1 ">=" 92 90 (by decide),
   C5_amended.2.2.2 "gte" 92 90 (by decide)⟩

/-! ## C4: hysteresis via clear_threshold -/

/-- Rule used to exercise the batch evaluator against the hysteresis claim:
at or above 90 triggers, clear threshold 85. -/
def c4rule : Rule :=
  ⟨"level_percentage", ">=", 90, some 85, none,
    "TANK_LEVEL_HIGH", "msg", "Warning"⟩

/-- C4 counterexample.  The batch evaluator cited by the claim ignores
clear_threshold: with the rule at-or-above 90, clear threshold 85, an Active
alert and a reading of 87 (non-trigger side of 90 but still above 85), one
evaluation step resolves the alert. -/
theorem C4_counterexample :
    check_asset_against_rules_step c4rule "T1" (some 87) 10
      [⟨"T1", "TANK_LEVEL_HIGH", "m", "Warning", AlertStatus.Active, 3, none⟩] =
      [⟨"T1", "TANK_LEVEL_HIGH", "m", "Warning", AlertStatus.Resolved, 3,
        some 10⟩] ∧
    (87 : ℚ) < 90 ∧ (85 : ℚ) ≤ 87 := by
  decide

/-- C4 amended.  The ingestion-path evaluator implements the hysteresis:
for a rule with a clear_threshold, a non-triggering value that has not
crossed the clear threshold in the safe direction changes nothing (the
Active alert survives), and a value past the clear threshold resolves it. -/
theorem C4_amended :
    (∀ (rule : Rule) (aid : String) (c v : ℚ) (now : Int) (st : AlertState),
      rule.clear_threshold = some c →
      (rule.condition = "gt" ∨ rule.condition = "gte") →
      isTriggeredProc rule.condition v rule.threshold = false →
      c ≤ v →
      check_and_process_asset_alerts_step rule aid (some v) now st = st) ∧
    (∀ (rule : Rule) (aid : String) (c v : ℚ) (now : Int) (st : AlertState),
      rule.clear_threshold = some c →
      (rule.condition = "gt" ∨ rule.condition = "gte") →
      isTriggeredProc rule.condition v rule.threshold = false →
      v < c →
      st.tracker = none →
      check_and_process_asset_alerts_step rule aid (some v) now st =
        ⟨none, resolve_alerts_for_condition st.db aid rule.alert_name now⟩) ∧
    (∀ (rule : Rule) (aid : String) (c v : ℚ) (now : Int) (st : AlertState),
      rule.clear_threshold = some c →
      (rule.condition = "lt" ∨ rule.condition = "lte") →
      isTriggeredProc rule.condition v rule.threshold = false →
      v ≤ c →
      check_and_process_asset_alerts_step rule aid (some v) now st = st) ∧
    (∀ (rule : Rule) (aid : String) (c v : ℚ) (now : Int) (st : AlertState),
      rule.clear_threshold = some c →
      (rule.condition = "lt" ∨ rule.condition = "lte") →
      isTriggeredProc rule.condition v rule.threshold = false →
      c < v →
      st.tracker = none →
      check_and_process_asset_alerts_step rule aid (some v) now st =
        ⟨none, resolve_alerts_for_condition st.db aid rule.alert_name now⟩) := by
  have hkeep : ∀ (rule : Rule) (aid : String) (v : ℚ) (now : Int)
      (st : AlertState),
      isTriggeredProc rule.condition v rule.threshold = false →
      shouldResolveProc rule v = false →
      check_and_process_asset_alerts_step rule aid (some v) now st = st := by
    intro rule aid v now st h1 h2
    simp [check_and_process_asset_alerts_step, h1, h2]
  have hclr : ∀ (rule : Rule) (aid : String) (v : ℚ) (now : Int)
      (st : AlertState),
      isTriggeredProc rule.condition v rule.threshold = false →
      shouldResolveProc rule v = true →
      st.tracker = none →
      check_and_process_asset_alerts_step rule aid (some v) now st =
        ⟨none, resolve_alerts_for_condition st.db aid rule.alert_name now⟩ := by
    intro rule aid v now st h1 h2 h3
    simp [check_and_process_asset_alerts_step, h1, h2, resolveStepProc, h3]
  refine ⟨?_, ?_, ?_, ?_⟩
  · intro rule aid c v now st hc hcond htrig h1
    refine hkeep _ _ _ _ _ htrig ?_
    rcases hcond with h | h <;>
      simp [shouldResolveProc, hc, h, not_lt.mpr h1]
  · intro rule aid c v now st hc hcond htrig h1 htr
    refine hclr _ _ _ _ _ htrig ?_ htr
    rcases hcond with h | h <;> simp [shouldResolveProc, hc, h, h1]
  · intro rule aid c v now st hc hcond htrig h1
    refine hkeep _ _ _ _ _ htrig ?_
    rcases hcond with h | h <;>
      simp [shouldResolveProc, hc, h, not_lt.mpr h1]
  · intro rule aid c v now st hc hcond htrig h1 htr
    refine hclr _ _ _ _ _ htrig ?_ htr
    rcases hcond with h | h <;> simp [shouldResolveProc, hc, h, h1]

/-- Rule used for the C4 witness on the ingestion evaluator: condition gte,
threshold 90, clear threshold 85, no duration gate. -/
def c4ruleProc : Rule :=
  ⟨"level_percentage", "gte", 90, some 85, none,
    "TANK_LEVEL_HIGH", "msg", "Warning"⟩

/-- Concrete instance of C4 amended: with an Active alert in place, a value
of 87 leaves the state untouched and a value of 83 resolves the alert. -/
theorem C4_amended_witness :
    check_and_process_asset_alerts_step c4ruleProc "T1" (some 87) 20
      ⟨none, [⟨"T1", "TANK_LEVEL_HIGH", "m", "Warning", AlertStatus.Active,
        3, none⟩]⟩ =
      ⟨none, [⟨"T1", "TANK_LEVEL_HIGH", "m", "Warning", AlertStatus.Active,
        3, none⟩]⟩ ∧
    check_and_process_asset_alerts_step c4ruleProc "T1" (some 83) 30
      ⟨none, [⟨"T1", "TANK_LEVEL_HIGH", "m", "Warning", AlertStatus.Active,
        3, none⟩]⟩ =
      ⟨none, [⟨"T1", "TANK_LEVEL_HIGH", "m", "Warning", AlertStatus.Resolved,
        3, some 30⟩]⟩ :=
  ⟨C4_amended.1 c4ruleProc "T1" 85 87 20 _ rfl (Or.inr rfl) (by decide)
      (by norm_num),
   by
    rw [C4_amended.2.1 c4ruleProc "T1" 85 83 30 _ rfl (Or.inr rfl)
      (by decide) (by norm_num) rfl]
    decide⟩

/-! ## C3: duration debounce -/

lemma procStep_creates (rule : Rule) (aid : String) (d : ℕ) (t0 : Int)
    (v0 : ℚ) (db : List Alert)
    (hd : rule.duration_seconds = some d)
    (ht : isTriggeredProc rule.condition v0 rule.threshold = true) :
    check_and_process_asset_alerts_step rule aid (some v0) t0 ⟨none, db⟩ =
      ⟨some ⟨t0, false, v0⟩, db⟩ := by
  simp [check_and_process_asset_alerts_step, ht, hd]

lemma procStep_waits (rule : Rule) (aid : String) (d : ℕ) (t0 now : Int)
    (v0 v : ℚ) (db : List Alert)
    (hd : rule.duration_seconds = some d)
    (ht : isTriggeredProc rule.condition v rule.threshold = true)
    (hlt : now - t0 < (d : Int)) :
    check_and_process_asset_alerts_step rule aid (some v) now
      ⟨some ⟨t0, false, v0⟩, db⟩ = ⟨some ⟨t0, false, v0⟩, db⟩ := by
  simp [check_and_process_asset_alerts_step, ht, hd, not_le.mpr hlt]

lemma procStep_opens (rule : Rule) (aid : String) (d : ℕ) (t0 now : Int)
    (v0 v : ℚ) (db : List Alert)
    (hd : rule.duration_seconds = some d)
    (ht : isTriggeredProc rule.condition v rule.threshold = true)
    (hge : (d : Int) ≤ now - t0) :
    check_and_process_asset_alerts_step rule aid (some v) now
      ⟨some ⟨t0, false, v0⟩, db⟩ =
      ⟨some ⟨t0, true, v0⟩,
        save_alert db aid rule.alert_name rule.message_template
          rule.severity now⟩ := by
  simp [check_and_process_asset_alerts_step, ht, hd, hge]

lemma runProcAlerts_waits (rule : Rule) (aid : String) (d : ℕ) (t0 : Int)
    (v0 : ℚ) (db : List Alert) (evals : List (Int × ℚ))
    (hd : rule.duration_seconds = some d)
    (hall : ∀ p ∈ evals,
      isTriggeredProc rule.condition p.2 rule.threshold = true ∧
      t0 < p.1 ∧ p.1 < t0 + d) :
    runProcAlerts rule aid (evals.map (fun p => (p.1, some p.2)))
      ⟨some ⟨t0, false, v0⟩, db⟩ = ⟨some ⟨t0, false, v0⟩, db⟩ := by
  induction evals with
  | nil => rfl
  | cons p ps ih =>
    obtain ⟨htr, h1, h2⟩ := hall p (List.mem_cons_self p ps)
    have hstep := procStep_waits rule aid d t0 p.1 v0 p.2 db hd htr
      (by omega)
    unfold runProcAlerts at ih ⊢
    simp only [List.map_cons, List.foldl_cons, hstep]
    exact ih (fun q hq => hall q (List.mem_cons_of_mem p hq))

/-- Duration-gated rule for the batch-evaluator counterexample. -/
def c3rule : Rule :=
  ⟨"level_percentage", ">=", 90, none, some 60,
    "TANK_LEVEL_HIGH", "msg", "Warning"⟩

/-- C3 counterexample.  The batch evaluator cited by the claim ignores
duration_seconds entirely: with a rule gated at 60 seconds whose condition
first becomes true at the evaluation at time 0, that very evaluation (well
before time 0 + 60) already persists an Active alert. -/
theorem C3_counterexample :
    check_asset_against_rules_step c3rule "T1" (some 92) 0 [] =
      [⟨"T1", "TANK_LEVEL_HIGH", "msg", "Warning", AlertStatus.Active, 0,
        none⟩] ∧
    ((0 : Int) < 0 + 60) := by
  decide

/-- C3 amended.  For the ingestion-path evaluator, with t the time of the
first evaluation observing the condition true: a single evaluation strictly
before t + duration_seconds leaves the candidate state and the alert table
exactly unchanged; a whole run of such evaluations opens nothing; and the
first later evaluation at or after t + duration_seconds opens the alert
(inserting the one Active row). -/
theorem C3_amended :
    (∀ (rule : Rule) (aid : String) (d : ℕ) (t0 now : Int) (v0 v : ℚ)
      (db : List Alert),
      rule.duration_seconds = some d →
      isTriggeredProc rule.condition v rule.threshold = true →
      now - t0 < (d : Int) →
      check_and_process_asset_alerts_step rule aid (some v) now
        ⟨some ⟨t0, false, v0⟩, db⟩ = ⟨some ⟨t0, false, v0⟩, db⟩) ∧
    (∀ (rule : Rule) (aid : String) (d : ℕ) (t0 : Int) (v0 : ℚ)
      (db : List Alert) (evals : List (Int × ℚ)),
      rule.duration_seconds = some d →
      isTriggeredProc rule.condition v0 rule.threshold = true →
      (∀ p ∈ evals,
        isTriggeredProc rule.condition p.2 rule.threshold = true ∧
        t0 < p.1 ∧ p.1 < t0 + d) →
      runProcAlerts rule aid
        ((t0, some v0) :: evals.map (fun p => (p.1, some p.2)))
        ⟨none, db⟩ = ⟨some ⟨t0, false, v0⟩, db⟩) ∧
    (∀ (rule : Rule) (aid : String) (d : ℕ) (t0 te : Int) (v0 ve : ℚ)
      (db : List Alert) (evals : List (Int × ℚ)),
      rule.duration_seconds = some d →
      isTriggeredProc rule.condition v0 rule.threshold = true →
      (∀ p ∈ evals,
        isTriggeredProc rule.condition p.2 rule.threshold = true ∧
        t0 < p.1 ∧ p.1 < t0 + d) →
      isTriggeredProc rule.condition ve rule.threshold = true →
      t0 + d ≤ te →
      db.any (alertMatchesActive aid rule.alert_name) = false →
      runProcAlerts rule aid
        (((t0, some v0) :: evals.map (fun p => (p.1, some p.2))) ++
          [(te, some ve)])
        ⟨none, db⟩ =
        ⟨some ⟨t0, true, v0⟩,
          db ++ [⟨aid, rule.alert_name, rule.message_template, rule.severity,
            AlertStatus.Active, te, none⟩]⟩) := by
  have hrun : ∀ (rule : Rule) (aid : String) (d : ℕ) (t0 : Int) (v0 : ℚ)
      (db : List Alert) (evals : List (Int × ℚ)),
      rule.duration_seconds = some d →
      isTriggeredProc rule.condition v0 rule.threshold = true →
      (∀ p ∈ evals,
        isTriggeredProc rule.condition p.2 rule.threshold = true ∧
        t0 < p.1 ∧ p.1 < t0 + d) →
      runProcAlerts rule aid
        ((t0, some v0) :: evals.map (fun p => (p.1, some p.2)))
        ⟨none, db⟩ = ⟨some ⟨t0, false, v0⟩, db⟩ := by
    intro rule aid d t0 v0 db evals hd ht0 hall
    have hc := procStep_creates rule aid d t0 v0 db hd ht0
    unfold runProcAlerts
    simp only [List.foldl_cons, hc]
    exact runProcAlerts_waits rule aid d t0 v0 db evals hd hall
  refine ⟨fun rule aid d t0 now v0 v db => procStep_waits rule aid d t0 now
    v0 v db, hrun, ?_⟩
  intro rule aid d t0 te v0 ve db evals hd ht0 hall hte hge hany
  have h1 := hrun rule aid d t0 v0 db evals hd ht0 hall
  unfold runProcAlerts at h1 ⊢
  rw [List.foldl_append, h1]
  simp only [List.foldl_cons, List.foldl_nil]
  rw [procStep_opens rule aid d t0 te v0 ve db hd hte (by omega)]
  simp [save_alert, hany]

/-- Ingestion-path rule for the C3 witness: above 90 sustained for 60
seconds. -/
def c3ruleProc : Rule :=
  ⟨"level_percentage", "gt", 90, none, some 60,
    "TANK_LEVEL_HIGH", "msg", "Warning"⟩

/-- Concrete instance of C3 amended: condition true at evaluations at times
0, 20 and 40 opens nothing; the evaluation at time 60 = 0 + 60 opens the
alert. -/
theorem C3_amended_witness :
    runProcAlerts c3ruleProc "T1"
      ((0, some 92) :: [((20 : Int), (91 : ℚ)), (40, 95)].map
        (fun p => (p.1, some p.2)))
      ⟨none, []⟩ = ⟨some ⟨0, false, 92⟩, []⟩ ∧
    runProcAlerts c3ruleProc "T1"
      (((0, some 92) :: [((20 : Int), (91 : ℚ)), (40, 95)].map
        (fun p => (p.1, some p.2))) ++ [(60, some 93)])
      ⟨none, []⟩ =
      ⟨some ⟨0, true, 92⟩,
        [⟨"T1", "TANK_LEVEL_HIGH", "msg", "Warning", AlertStatus.Active, 60,
          none⟩]⟩ := by
  constructor
  · exact C3_amended.2.1 c3ruleProc "T1" 60 0 92 [] [(20, 91), (40, 95)]
      rfl (by decide) (by decide)
  · have := C3_amended.2.2 c3ruleProc "T1" 60 0 60 92 93 [] [(20, 91), (40, 95)]
      rfl (by decide) (by decide) (by decide) (by decide) rfl
    simpa using this

/-! ## Density and volume correction engine (core/calculations.py)

Decimal values are modelled as exact rationals; a Python ValueError or
DivisionByZero is modelled as none. -/

/-- calculations.calculate_alpha_for_table54b: thermal-expansion coefficient
at 15 C from density at 15 C; raises on non-positive density. -/
def calculate_alpha_for_table54b (density_at_15c : ℚ) : Option ℚ :=
  if density_at_15c ≤ 0 then none
  else
    let den15_sq := density_at_15c * density_at_15c
    if density_at_15c ≤ 770 then
      some ((346.42278 + 0.43884 * density_at_15c) / den15_sq)
    else if density_at_15c < 778 then
      some (594.5418 / den15_sq)
    else if density_at_15c < 839 then
      some (594.5418 / den15_sq)
    else
      some ((186.9696 + 0.48618 * density_at_15c) / den15_sq)

/-- Loop body of calculations.convert_density_20c_to_15c: at most the given
number of iterations; each computes alpha at the current guess, recomputes
the candidate density at 15 C and stops early (returning the previous
guess, as the Python break does) when the two agree within 0.001. -/
def convertLoop (density_at_20c : ℚ) : ℕ → ℚ → Option ℚ
  | 0, guess => some guess
  | n + 1, guess =>
    match calculate_alpha_for_table54b guess with
    | none => none
    | some alpha =>
      if 1 - alpha * 5 = 0 then none
      else
        let calcv := density_at_20c / (1 - alpha * 5)
        if |calcv - guess| < 0.001 then some guess
        else convertLoop density_at_20c n calcv

/-- calculations.convert_density_20c_to_15c: seed guess density20 times
1.005, then at most 5 refinement iterations. -/
def convert_density_20c_to_15c (density_at_20c : ℚ) : Option ℚ :=
  convertLoop density_at_20c 5 (density_at_20c * 1.005)

/-- Exponent of the VCF computed by
calculations.calculate_precise_vcf_c_table54b; the function itself returns
exp of this value (as a float, rounded to 5 decimals), with delta-t taken
against the configured 20 C reference temperature. -/
def vcf_exponent (observed_temperature_c ρ15 : ℚ) : Option ℚ :=
  (calculate_alpha_for_table54b ρ15).map fun alpha =>
    -(alpha * (observed_temperature_c - 20) *
      (1 + 0.8 * alpha * (observed_temperature_c - 20)))

/-- Exponent of the VCF used inside calculations.calculate_precise_gsv:
alpha is evaluated at the density at 15 C obtained by converting the
supplied density at 20 C. -/
def gsv_vcf_exponent (observed_temperature_c density_at_20c : ℚ) :
    Option ℚ :=
  (convert_density_20c_to_15c density_at_20c).bind fun ρ15 =>
    vcf_exponent observed_temperature_c ρ15

/-! ## Simplified volume calculator (utils/volume_calculator.py) -/

/-- VolumeCalculator.get_vcf: the simplified VCF used by the calculation
orchestrator.  It uses the fixed placeholder coefficient alpha = 0.00095 and
the linear formula 1 - alpha * delta_t; the density argument only gates the
None check and does not enter the value. -/
def get_vcf (density_at_20c observed_temp_c : Option ℚ) : Option ℚ :=
  match density_at_20c, observed_temp_c with
  | some _, some t => some (1 - 0.00095 * (t - 20))
  | _, _ => none

/-- VolumeCalculator.calculate_gsv: GOV times the simplified VCF. -/
def calculate_gsv (gov_litres observed_temp_c density_at_20c : Option ℚ) :
    Option ℚ :=
  match gov_litres with
  | none => none
  | some gov =>
    match get_vcf density_at_20c observed_temp_c with
    | none => none
    | some vcf => some (gov * vcf)

/-! ## C7: the 20 C to 15 C density conversion algorithm -/

/-- Restatement of the conversion algorithm in the words of the design
note: a 4-branch piecewise alpha with bands at 770, 778 and 839, each
branch of the shape (k0 + k1 * rho) / rho ^ 2. -/
def alphaClaim (ρ : ℚ) : Option ℚ :=
  if 0 < ρ then
    some (
      if ρ ≤ 770 then (346.42278 + 0.43884 * ρ) / ρ ^ 2
      else if 770 < ρ ∧ ρ < 778 then (594.5418 + 0 * ρ) / ρ ^ 2
      else if 778 ≤ ρ ∧ ρ < 839 then (594.5418 + 0 * ρ) / ρ ^ 2
      else (186.9696 + 0.48618 * ρ) / ρ ^ 2)
  else none

/-- Restatement of the iteration in the words of the design note: seed
guess density20 times 1.005, at most 5 iterations, each recomputing
density15 = density20 / (1 - alpha * 5), stopping early when successive
guesses differ by less than 0.001. -/
def densityConvClaimIter (d : ℚ) : ℕ → ℚ → Option ℚ
  | 0, g => some g
  | n + 1, g =>
    (alphaClaim g).bind fun α =>
      if 1 - α * 5 = 0 then none
      else if |d / (1 - α * 5) - g| < 0.001 then some g
      else densityConvClaimIter d n (d / (1 - α * 5))

/-- The conversion algorithm exactly as the design note states it. -/
def densityConvClaim (d : ℚ) : Option ℚ :=
  densityConvClaimIter d 5 (d * 1.005)

lemma alpha_eq_alphaClaim (ρ : ℚ) :
    calculate_alpha_for_table54b ρ = alphaClaim ρ := by
  unfold calculate_alpha_for_table54b alphaClaim
  by_cases h0 : ρ ≤ 0
  · simp [h0, not_lt.mpr h0]
  · have h0' : 0 < ρ := not_le.mp h0
    simp only [h0, if_false, h0', if_true]
    rcases le_or_lt ρ 770 with hb | hb
    · rw [if_pos hb, if_pos hb]
      congr 1
      ring
    · rw [if_neg (not_le.mpr hb), if_neg (not_le.mpr hb)]
      rcases lt_or_le ρ 778 with hc | hc
      · rw [if_pos hc, if_pos ⟨hb, hc⟩]
        congr 1
        ring
      · have hc2 : ¬(770 < ρ ∧ ρ < 778) := fun h => absurd h.2 (not_lt.mpr hc)
        rw [if_neg (not_lt.mpr hc), if_neg hc2]
        rcases lt_or_le ρ 839 with hd | hd
        · rw [if_pos hd, if_pos ⟨hc, hd⟩]
          congr 1
          ring
        · have hd2 : ¬(778 ≤ ρ ∧ ρ < 839) :=
            fun h => absurd h.2 (not_lt.mpr hd)
          rw [if_neg (not_lt.mpr hd), if_neg hd2]
          congr 1
          ring

lemma convertLoop_eq_claim (d : ℚ) :
    ∀ (n : ℕ) (g : ℚ), convertLoop d n g = densityConvClaimIter d n g := by
  intro n
  induction n with
  | zero => intro g; rfl
  | succ n ih =>
    intro g
    cases halpha : alphaClaim g with
    | none =>
      simp [convertLoop, densityConvClaimIter, alpha_eq_alphaClaim, halpha]
    | some α =>
      simp only [convertLoop, densityConvClaimIter, alpha_eq_alphaClaim,
        halpha, Option.some_bind]
      split_ifs with h1 h2
      · rfl
      · rfl
      · exact ih _

/-- C7.  The 20 C to 15 C density conversion follows exactly the algorithm
of the design note: the 4-branch piecewise alpha with bands at 770, 778 and
839, seed guess density20 times 1.005, at most 5 iterations recomputing
density15 = density20 / (1 - alpha * 5), early stop when successive guesses
differ by less than 0.001. -/
theorem C7_density_conversion_algorithm :
    (∀ ρ : ℚ, calculate_alpha_for_table54b ρ = alphaClaim ρ) ∧
    (∀ d : ℚ, convert_density_20c_to_15c d = densityConvClaim d) :=
  ⟨alpha_eq_alphaClaim, fun d => convertLoop_eq_claim d 5 (d * 1.005)⟩

/-! ## C6: the volume correction factor applied to convert GOV to GSV -/

lemma conv_769_14 : convert_density_20c_to_15c 769.14 = some 772.9857 := by
  norm_num [convert_density_20c_to_15c, convertLoop,
    calculate_alpha_for_table54b, abs]

lemma alpha_772_9857 :
    calculate_alpha_for_table54b 772.9857 =
      some (6606020000 / 6638965471161) := by
  norm_num [calculate_alpha_for_table54b]

/-- C6 counterexample.  The VCF the calculation orchestrator applies to
convert GOV to GSV is VolumeCalculator.get_vcf; at density 769.14 and
observed temperature 1073 it returns the negative value -0.00035, while the
exponential form claimed by the design note is positive whatever its
exponent (which is defined at this input), so the two disagree here. -/
theorem C6_counterexample :
    get_vcf (some 769.14) (some 1073) = some (-0.00035) ∧
    (gsv_vcf_exponent 1073 769.14).isSome = true ∧
    (-0.00035 : ℝ) <
      Real.exp (((gsv_vcf_exponent 1073 769.14).getD 0 : ℚ) : ℝ) := by
  refine ⟨by norm_num [get_vcf], ?_, ?_⟩
  · simp [gsv_vcf_exponent, conv_769_14, vcf_exponent, alpha_772_9857]
  · exact lt_trans (by norm_num) (Real.exp_pos _)

/-- C6 amended.  The exponential-form VCF, with alpha evaluated at the
converted density at 15 C and delta-t against the 20 C reference, is the one
of the ingestion-path engine calculate_precise_vcf_c_table54b (inside
calculate_precise_gsv); the VCF the calculation orchestrator applies via
VolumeCalculator.get_vcf is instead the linear 1 - 0.00095 * delta-t with a
fixed alpha. -/
theorem C6_applied_vcf :
    (∀ d t : ℚ, get_vcf (some d) (some t) = some (1 - 0.00095 * (t - 20))) ∧
    (∀ gov t d : ℚ, calculate_gsv (some gov) (some t) (some d) =
      some (gov * (1 - 0.00095 * (t - 20)))) ∧
    (∀ t ρ15 α : ℚ, calculate_alpha_for_table54b ρ15 = some α →
      vcf_exponent t ρ15 =
        some (-(α * (t - 20) * (1 + 0.8 * α * (t - 20))))) ∧
    (∀ t d20 ρ15 α : ℚ,
      convert_density_20c_to_15c d20 = some ρ15 →
      calculate_alpha_for_table54b ρ15 = some α →
      gsv_vcf_exponent t d20 =
        some (-(α * (t - 20) * (1 + 0.8 * α * (t - 20))))) := by
  refine ⟨fun d t => rfl, fun gov t d => rfl, ?_, ?_⟩
  · intro t ρ15 α h
    simp [vcf_exponent, h]
  · intro t d20 ρ15 α hconv h
    simp [gsv_vcf_exponent, hconv, vcf_exponent, h]

/-- Concrete instance of C6 amended: density 769.14 converges to 772.9857
in one iteration, and the exponent of the ingestion-path VCF at 25 C is the
claimed formula evaluated at that converted density. -/
theorem C6_applied_vcf_witness :
    gsv_vcf_exponent 25 769.14 =
      some (-((6606020000 / 6638965471161 : ℚ) * (25 - 20) *
        (1 + 0.8 * (6606020000 / 6638965471161) * (25 - 20)))) :=
  C6_applied_vcf.2.2.2 25 769.14 772.9857 (6606020000 / 6638965471161)
    conv_769_14 alpha_772_9857

/-! ## C8: GOV from the strapping table
(VolumeCalculator.calculate_gov_from_strapping)

The strapping dict is modelled by its sorted association list (the code
sorts the dict keys before interpolating); np.interp clamps to the first
and last sample values outside the range. -/

/-- np.interp over increasing sample points: piecewise-linear inside the
range, clamped to the end values outside it. -/
def interp (x : ℚ) : List (ℚ × ℚ) → ℚ
  | [] => 0
  | [p] => p.2
  | p :: q :: rest =>
    if x ≤ p.1 then p.2
    else if x ≤ q.1 then p.2 + (q.2 - p.2) * (x - p.1) / (q.1 - p.1)
    else interp x (q :: rest)

/-- VolumeCalculator.calculate_gov_from_strapping: None on a missing level
or an empty table, otherwise np.interp of the level against the sorted
table. -/
def calculate_gov_from_strapping (level_mm : Option ℚ)
    (pts : List (ℚ × ℚ)) : Option ℚ :=
  match level_mm, pts with
  | none, _ => none
  | some _, [] => none
  | some x, p :: rest => some (interp x (p :: rest))

/-- The levels of the table are strictly increasing, as the sorted distinct
keys of the strapping dict are. -/
def strappingSorted (pts : List (ℚ × ℚ)) : Prop :=
  pts.Chain' (fun p q => p.1 < q.1)

/-- The volumes of the table are monotonically non-decreasing. -/
def volumesMonotone (pts : List (ℚ × ℚ)) : Prop :=
  pts.Chain' (fun p q => p.2 ≤ q.2)

lemma interp_ge_head (pts : List (ℚ × ℚ)) :
    ∀ p : ℚ × ℚ, strappingSorted (p :: pts) → volumesMonotone (p :: pts) →
      ∀ x : ℚ, p.2 ≤ interp x (p :: pts) := by
  induction pts with
  | nil => intro p _ _ x; simp [interp]
  | cons q rest ih =>
    intro p hS hV x
    have hpq : p.1 < q.1 := (List.chain'_cons.mp hS).1
    have hSq := (List.chain'_cons.mp hS).2
    have hvpq : p.2 ≤ q.2 := (List.chain'_cons.mp hV).1
    have hVq := (List.chain'_cons.mp hV).2
    by_cases h1 : x ≤ p.1
    · simp [interp, h1]
    · by_cases h2 : x ≤ q.1
      · simp only [interp]
        rw [if_neg h1, if_pos h2]
        have hD : 0 < q.1 - p.1 := by linarith
        have hx : 0 ≤ x - p.1 := by linarith [not_le.mp h1]
        have hnn : 0 ≤ (q.2 - p.2) * (x - p.1) / (q.1 - p.1) :=
          div_nonneg (mul_nonneg (by linarith) hx) (le_of_lt hD)
        linarith
      · have htail := ih q hSq hVq x
        simp only [interp]
        rw [if_neg h1, if_neg h2]
        linarith

lemma interp_mono (pts : List (ℚ × ℚ)) :
    strappingSorted pts → volumesMonotone pts →
      ∀ x y : ℚ, x ≤ y → interp x pts ≤ interp y pts := by
  induction pts with
  | nil => intro _ _ x y _; simp [interp]
  | cons p tail ih =>
    cases tail with
    | nil => intro _ _ x y _; simp [interp]
    | cons q rest =>
      intro hS hV x y hxy
      have hpq : p.1 < q.1 := (List.chain'_cons.mp hS).1
      have hSq := (List.chain'_cons.mp hS).2
      have hvpq : p.2 ≤ q.2 := (List.chain'_cons.mp hV).1
      have hVq := (List.chain'_cons.mp hV).2
      have hD : 0 < q.1 - p.1 := by linarith
      by_cases hy1 : y ≤ p.1
      · have hx1 : x ≤ p.1 := le_trans hxy hy1
        simp [interp, hx1, hy1]
      · by_cases hx1 : x ≤ p.1
        · have hge := interp_ge_head (q :: rest) p hS hV y
          calc interp x (p :: q :: rest) = p.2 := by
                simp only [interp]; rw [if_pos hx1]
            _ ≤ interp y (p :: q :: rest) := hge
        · by_cases hy2 : y ≤ q.1
          · have hx2 : x ≤ q.1 := le_trans hxy hy2
            simp only [interp]
            rw [if_neg hx1, if_pos hx2, if_neg hy1, if_pos hy2]
            have h1 : 0 ≤ q.2 - p.2 := by linarith
            have hmul : (q.2 - p.2) * (x - p.1) ≤ (q.2 - p.2) * (y - p.1) :=
              mul_le_mul_of_nonneg_left (by linarith) h1
            have := (div_le_div_iff_of_pos_right hD).mpr hmul
            linarith
          · by_cases hx2 : x ≤ q.1
            · have hyge := interp_ge_head rest q hSq hVq y
              simp only [interp]
              rw [if_neg hx1, if_pos hx2, if_neg hy1, if_neg hy2]
              have h1 : 0 ≤ q.2 - p.2 := by linarith
              have ht : (x - p.1) / (q.1 - p.1) ≤ 1 := by
                rw [div_le_one hD]; linarith
              have hb := mul_le_of_le_one_right h1 ht
              rw [mul_div_assoc]
              linarith
            · have := ih hSq hVq x y hxy
              simp only [interp]
              rw [if_neg hx1, if_neg hx2, if_neg hy1, if_neg hy2]
              exact this

lemma sorted_head_le_getLast (pts : List (ℚ × ℚ)) :
    ∀ p : ℚ × ℚ, strappingSorted (p :: pts) →
      p.1 ≤ ((p :: pts).getLast (by simp)).1 := by
  induction pts with
  | nil => intro p _; simp
  | cons q rest ih =>
    intro p h
    have hpq : p.1 < q.1 := (List.chain'_cons.mp h).1
    have htail := ih q (List.chain'_cons.mp h).2
    rw [List.getLast_cons (by simp)]
    exact le_trans (le_of_lt hpq) htail

lemma interp_clamp_head (pts : List (ℚ × ℚ)) (p : ℚ × ℚ) (x : ℚ)
    (h : x ≤ p.1) : interp x (p :: pts) = p.2 := by
  cases pts with
  | nil => simp [interp]
  | cons q rest => simp [interp, h]

lemma interp_clamp_last (pts : List (ℚ × ℚ)) :
    ∀ (h : pts ≠ []), strappingSorted pts → ∀ x : ℚ,
      (pts.getLast h).1 ≤ x → interp x pts = (pts.getLast h).2 := by
  induction pts with
  | nil => intro h; cases h rfl
  | cons p tail ih =>
    intro h hS x hx
    cases tail with
    | nil => simp [interp]
    | cons q rest =>
      have hpq : p.1 < q.1 := (List.chain'_cons.mp hS).1
      have hSq := (List.chain'_cons.mp hS).2
      have hql : q.1 ≤ ((q :: rest).getLast (by simp)).1 :=
        sorted_head_le_getLast rest q hSq
      rw [List.getLast_cons (by simp)] at hx ⊢
      have hx1 : ¬ x ≤ p.1 := by
        push_neg
        calc p.1 < q.1 := hpq
          _ ≤ _ := hql
          _ ≤ x := hx
      cases rest with
      | nil =>
        simp only [List.getLast_singleton] at hx ⊢
        by_cases h2 : x ≤ q.1
        · have hxq : x = q.1 := le_antisymm h2 hx
          simp only [interp]
          rw [if_neg hx1, if_pos h2, hxq, mul_div_assoc,
            div_self (by intro hc; apply absurd hpq; rw [sub_eq_zero] at hc; simp [hc]),
            mul_one]
          ring
        · simp only [interp]
          rw [if_neg hx1, if_neg h2]
      | cons r rest2 =>
        have hqr : q.1 < r.1 := (List.chain'_cons.mp hSq).1
        have hrl : r.1 ≤ ((r :: rest2).getLast (by simp)).1 :=
          sorted_head_le_getLast rest2 r (List.chain'_cons.mp hSq).2
        have hx2 : ¬ x ≤ q.1 := by
          push_neg
          rw [List.getLast_cons (by simp)] at hx
          calc q.1 < r.1 := hqr
            _ ≤ _ := hrl
            _ ≤ x := hx
        have := ih (by simp) hSq x hx
        simp only [interp]
        rw [if_neg hx1, if_neg hx2]
        exact this

lemma volumes_head_min (pts : List (ℚ × ℚ)) :
    ∀ p : ℚ × ℚ, volumesMonotone (p :: pts) →
      ∀ r ∈ p :: pts, p.2 ≤ r.2 := by
  induction pts with
  | nil =>
    intro p _ r hr
    rw [List.mem_singleton] at hr
    rw [hr]
  | cons q rest ih =>
    intro p hV r hr
    rcases List.mem_cons.mp hr with h | h
    · rw [h]
    · have hpq : p.2 ≤ q.2 := (List.chain'_cons.mp hV).1
      exact le_trans hpq (ih q (List.chain'_cons.mp hV).2 r h)

lemma volumes_last_max (pts : List (ℚ × ℚ)) :
    ∀ (h : pts ≠ []), volumesMonotone pts →
      ∀ r ∈ pts, r.2 ≤ (pts.getLast h).2 := by
  induction pts with
  | nil => intro h; cases h rfl
  | cons p tail ih =>
    intro h hV r hr
    cases tail with
    | nil =>
      rw [List.mem_singleton] at hr
      rw [hr, List.getLast_singleton]
    | cons q rest =>
      have hvpq : p.2 ≤ q.2 := (List.chain'_cons.mp hV).1
      have hVq := (List.chain'_cons.mp hV).2
      rw [List.getLast_cons (by simp)]
      rcases List.mem_cons.mp hr with h1 | h1
      · rw [h1]
        exact le_trans hvpq
          (ih (by simp) hVq q (List.mem_cons_self q rest))
      · exact ih (by simp) hVq r h1

/-- C8.  Over any non-empty strapping table with strictly increasing levels
(the sorted distinct dict keys) and non-decreasing volumes, the interpolated
GOV is non-decreasing in the level; a level at or below the smallest table
level yields the first (minimum) volume, a level at or above the largest
yields the last (maximum) volume; and the head and last volumes are indeed
the table minimum and maximum. -/
theorem C8_gov_interpolation :
    (∀ (pts : List (ℚ × ℚ)) (x y : ℚ), strappingSorted pts →
      volumesMonotone pts → x ≤ y → interp x pts ≤ interp y pts) ∧
    (∀ (pts : List (ℚ × ℚ)) (p : ℚ × ℚ) (x : ℚ), x ≤ p.1 →
      calculate_gov_from_strapping (some x) (p :: pts) = some p.2) ∧
    (∀ (pts : List (ℚ × ℚ)) (h : pts ≠ []) (x : ℚ), strappingSorted pts →
      (pts.getLast h).1 ≤ x →
      calculate_gov_from_strapping (some x) pts =
        some ((pts.getLast h).2)) ∧
    (∀ (pts : List (ℚ × ℚ)) (p : ℚ × ℚ), volumesMonotone (p :: pts) →
      ∀ r ∈ p :: pts, p.2 ≤ r.2) ∧
    (∀ (pts : List (ℚ × ℚ)) (h : pts ≠ []), volumesMonotone pts →
      ∀ r ∈ pts, r.2 ≤ (pts.getLast h).2) := by
  refine ⟨fun pts x y hS hV hxy => interp_mono pts hS hV x y hxy,
    ?_, ?_, volumes_head_min, volumes_last_max⟩
  · intro pts p x h
    simp only [calculate_gov_from_strapping]
    rw [interp_clamp_head pts p x h]
  · intro pts h x hS hx
    cases pts with
    | nil => cases h rfl
    | cons p rest =>
      simp only [calculate_gov_from_strapping]
      rw [interp_clamp_last (p :: rest) h hS x hx]

/-- Concrete instance of C8 on the two-point table of the design note:
level 2000 is below level 6000 in volume, level -5 clamps to the minimum
volume 0 and level 20000 clamps to the maximum volume 1000000. -/
theorem C8_gov_interpolation_witness :
    interp 2000 [((0 : ℚ), (0 : ℚ)), (10000, 1000000)] ≤
      interp 6000 [((0 : ℚ), (0 : ℚ)), (10000, 1000000)] ∧
    calculate_gov_from_strapping (some (-5))
      [((0 : ℚ), (0 : ℚ)), (10000, 1000000)] = some 0 ∧
    calculate_gov_from_strapping (some 20000)
      [((0 : ℚ), (0 : ℚ)), (10000, 1000000)] = some 1000000 := by
  have hS : strappingSorted [((0 : ℚ), (0 : ℚ)), (10000, 1000000)] := by
    constructor
    · norm_num
    · exact List.chain'_singleton _
  have hV : volumesMonotone [((0 : ℚ), (0 : ℚ)), (10000, 1000000)] := by
    constructor
    · norm_num
    · exact List.chain'_singleton _
  refine ⟨C8_gov_interpolation.1 _ 2000 6000 hS hV (by norm_num),
    C8_gov_interpolation.2.1 [((10000 : ℚ), (1000000 : ℚ))] (0, 0) (-5)
      (by norm_num), ?_⟩
  have := C8_gov_interpolation.2.2.1
    [((0 : ℚ), (0 : ℚ)), (10000, 1000000)] (by simp) 20000 hS (by norm_num)
  simpa using this

/-! ## Mass balance (core/physics/mass_balance.py)

MassResult carries the computed mass and its inputs; the timestamp field is
omitted (it is threaded through unchanged). -/

structure MassResult where
  mass_kg : ℚ
  volume_litres : ℚ
  density_at_temp_kg_m3 : ℚ
  temperature_c : ℚ
  density_at_20c_kg_m3 : ℚ
  product_type : Option String
deriving DecidableEq, Repr

/-- mass_balance.PRODUCT_PROPERTIES thermal_expansion_coeff column. -/
def thermal_expansion_coeff (key : String) : Option ℚ :=
  if key = "PMS" then some 0.00120
  else if key = "AGO" then some 0.00083
  else if key = "DPK" then some 0.00090
  else if key = "LPG" then some 0.00300
  else if key = "RFO" then some 0.00065
  else if key = "DEFAULT" then some 0.00095
  else none

/-- ASCII uppercasing of one character, as Python str.upper acts on product
codes. -/
def charUpper (c : Char) : Char :=
  if c.isLower then Char.ofNat (c.toNat - 32) else c

/-- Python product_type.upper(). -/
def condUpper (s : String) : String := String.mk (s.data.map charUpper)

/-- MassBalanceCalculator.get_product_properties restricted to the thermal
expansion coefficient: a truthy product code found in the table (after
uppercasing) selects its coefficient, anything else falls back to the
DEFAULT 0.00095. -/
def get_product_beta (product_type : Option String) : ℚ :=
  match product_type with
  | some p =>
    if p = "" then 0.00095
    else
      match thermal_expansion_coeff (condUpper p) with
      | some β => β
      | none => 0.00095
  | none => 0.00095

/-- MassBalanceCalculator.calculate_density_at_temperature with the 20 C
reference the calculation service constructs it with:
rho(T) = rho20 * (1 - beta * (T - 20)). -/
def calculate_density_at_temperature (density_at_20c temperature_c : ℚ)
    (product_type : Option String) : ℚ :=
  density_at_20c * (1 - get_product_beta product_type * (temperature_c - 20))

/-- MassBalanceCalculator.calculate_mass_from_volume:
mass (kg) = volume (L) * density (kg/m3) / 1000. -/
def calculate_mass_from_volume (volume_litres density_kg_m3 : ℚ) : ℚ :=
  volume_litres * density_kg_m3 / 1000

/-- MassBalanceCalculator.calculate_mass_in_tank: with all three inputs
present, mass from the temperature-corrected density; with any input
missing, a MassResult with mass 0.0 and 0.0 substituted for each missing
field (the Python x or 0.0 idiom). -/
def calculate_mass_in_tank (gov_litres temperature_c density_at_20c :
    Option ℚ) (product_type : Option String) : MassResult :=
  match gov_litres, temperature_c, density_at_20c with
  | some g, some T, some d =>
    let ρT := calculate_density_at_temperature d T product_type
    ⟨calculate_mass_from_volume g ρT, g, ρT, T, d, product_type⟩
  | _, _, _ =>
    ⟨0, gov_litres.getD 0, 0, temperature_c.getD 0, density_at_20c.getD 0,
      product_type⟩

/-! ## Transfer reconciliation (MassBalanceCalculator.reconcile_transfer) -/

/-- Result row of a reconciliation; the formatted details text is not
modelled. -/
structure ReconciliationResult where
  source_mass_change_kg : ℚ
  destination_mass_change_kg : ℚ
  metered_mass_kg : ℚ
  discrepancy_kg : ℚ
  discrepancy_percent : ℚ
  status : String
deriving DecidableEq, Repr

/-- Python truthiness of an optional float: None and 0.0 are falsy. -/
def truthyOpt (x : Option ℚ) : Bool :=
  match x with
  | none => false
  | some v => decide (v ≠ 0)

/-- MassBalanceCalculator.ACCEPTABLE_DISCREPANCY_PERCENT. -/
def ACCEPTABLE_DISCREPANCY_PERCENT : ℚ := 0.5

/-- Status classification at the end of reconcile_transfer (named here for
the proofs; the Python inlines this if-chain). -/
def transferStatus (pct disc : ℚ) : String :=
  if pct ≤ ACCEPTABLE_DISCREPANCY_PERCENT then "BALANCED"
  else if 0 < disc then "GAIN"
  else "LOSS"

/-- MassBalanceCalculator.reconcile_transfer: source loss, destination
gain, metered mass (direct, via average tank density, or defaulted to the
source loss), discrepancy, percentage against the largest of the three
masses floored at 1.0 kg, and the BALANCED / GAIN / LOSS status. -/
def reconcile_transfer (source_before source_after dest_before dest_after :
    MassResult) (metered_volume_litres metered_density_kg_m3 : Option ℚ) :
    ReconciliationResult :=
  let source_change := source_before.mass_kg - source_after.mass_kg
  let dest_change := dest_after.mass_kg - dest_before.mass_kg
  let metered_mass :=
    if truthyOpt metered_volume_litres && truthyOpt metered_density_kg_m3 then
      calculate_mass_from_volume (metered_volume_litres.getD 0)
        (metered_density_kg_m3.getD 0)
    else if truthyOpt metered_volume_litres then
      calculate_mass_from_volume (metered_volume_litres.getD 0)
        ((source_before.density_at_temp_kg_m3 +
          dest_after.density_at_temp_kg_m3) / 2)
    else source_change
  let discrepancy := dest_change - source_change
  let reference_mass := max (max (max source_change dest_change)
    metered_mass) 1
  let discrepancy_percent := |discrepancy| / reference_mass * 100
  ⟨-source_change, dest_change, metered_mass, discrepancy,
    discrepancy_percent, transferStatus discrepancy_percent discrepancy⟩

/-- The discrepancy percentage as the claim words it: absolute discrepancy
relative to the larger of the two mass changes. -/
def claimDiscrepancyPercent (source_change dest_change : ℚ) : ℚ :=
  |dest_change - source_change| / max source_change dest_change * 100

lemma transferStatus_balanced (pct disc : ℚ) :
    transferStatus pct disc = "BALANCED" ↔ pct ≤ 0.5 := by
  unfold transferStatus ACCEPTABLE_DISCREPANCY_PERCENT
  split_ifs with h1 h2 <;> simp_all

lemma transferStatus_gain (pct disc : ℚ) :
    transferStatus pct disc = "GAIN" ↔ ¬pct ≤ 0.5 ∧ 0 < disc := by
  unfold transferStatus ACCEPTABLE_DISCREPANCY_PERCENT
  split_ifs with h1 h2 <;> simp_all

lemma transferStatus_loss (pct disc : ℚ) :
    transferStatus pct disc = "LOSS" ↔ ¬pct ≤ 0.5 ∧ ¬0 < disc := by
  unfold transferStatus ACCEPTABLE_DISCREPANCY_PERCENT
  split_ifs with h1 h2 <;> simp_all

/-- C9 counterexample.  Source loss 0.5 kg, destination gain 0.4 kg, no
meter: the code floors the percentage reference at 1.0 kg, so it reports
10 percent, while the claim formula (relative to the larger of the two mass
changes, 0.5 kg) gives 20 percent. -/
theorem C9_counterexample :
    (reconcile_transfer ⟨100, 0, 800, 25, 850, none⟩
      ⟨199/2, 0, 800, 25, 850, none⟩ ⟨0, 0, 800, 25, 850, none⟩
      ⟨2/5, 0, 800, 25, 850, none⟩ none none).discrepancy_percent = 10 ∧
    claimDiscrepancyPercent (100 - 199/2) (2/5 - 0) = 20 ∧
    (100 : ℚ) - 199/2 = 1/2 ∧ (10 : ℚ) ≠ 20 := by
  refine ⟨?_, ?_, by norm_num, by norm_num⟩
  · norm_num [reconcile_transfer, truthyOpt, transferStatus,
      max_def, abs]
  · norm_num [claimDiscrepancyPercent, max_def, abs]

/-- C9 amended.  reconcile_transfer reports discrepancy = destination gain
minus source loss; the percentage is the absolute discrepancy relative to
the largest of source loss, destination gain and metered mass, floored at
1.0 kg (not merely the larger of the two changes); and the status is
BALANCED exactly when that percentage is at most 0.5, GAIN when it exceeds
0.5 with positive discrepancy, LOSS when it exceeds 0.5 with negative
discrepancy. -/
theorem C9_reconcile_transfer :
    ∀ (sb sa db2 da : MassResult) (mv mρ : Option ℚ),
      (reconcile_transfer sb sa db2 da mv mρ).discrepancy_kg =
        (da.mass_kg - db2.mass_kg) - (sb.mass_kg - sa.mass_kg) ∧
      (reconcile_transfer sb sa db2 da mv mρ).source_mass_change_kg =
        -(sb.mass_kg - sa.mass_kg) ∧
      (reconcile_transfer sb sa db2 da mv mρ).destination_mass_change_kg =
        da.mass_kg - db2.mass_kg ∧
      (reconcile_transfer sb sa db2 da mv mρ).discrepancy_percent =
        |(da.mass_kg - db2.mass_kg) - (sb.mass_kg - sa.mass_kg)| /
          max (max (max (sb.mass_kg - sa.mass_kg) (da.mass_kg - db2.mass_kg))
            ((reconcile_transfer sb sa db2 da mv mρ).metered_mass_kg)) 1 *
          100 ∧
      ((reconcile_transfer sb sa db2 da mv mρ).status = "BALANCED" ↔
        (reconcile_transfer sb sa db2 da mv mρ).discrepancy_percent ≤ 0.5) ∧
      ((reconcile_transfer sb sa db2 da mv mρ).status = "GAIN" ↔
        ¬(reconcile_transfer sb sa db2 da mv mρ).discrepancy_percent ≤ 0.5 ∧
        0 < (reconcile_transfer sb sa db2 da mv mρ).discrepancy_kg) ∧
      ((reconcile_transfer sb sa db2 da mv mρ).status = "LOSS" ↔
        ¬(reconcile_transfer sb sa db2 da mv mρ).discrepancy_percent ≤ 0.5 ∧
        (reconcile_transfer sb sa db2 da mv mρ).discrepancy_kg < 0) := by
  intro sb sa db2 da mv mρ
  refine ⟨rfl, rfl, rfl, rfl, transferStatus_balanced _ _,
    transferStatus_gain _ _, ?_⟩
  rw [show (reconcile_transfer sb sa db2 da mv mρ).status =
    transferStatus (reconcile_transfer sb sa db2 da mv mρ).discrepancy_percent
      (reconcile_transfer sb sa db2 da mv mρ).discrepancy_kg from rfl]
  rw [transferStatus_loss]
  constructor
  · rintro ⟨hp, hd⟩
    refine ⟨hp, ?_⟩
    rcases lt_trichotomy ((reconcile_transfer sb sa db2 da mv mρ).discrepancy_kg)
      0 with h | h | h
    · exact h
    · exfalso
      apply hp
      have : (reconcile_transfer sb sa db2 da mv mρ).discrepancy_percent =
          |(reconcile_transfer sb sa db2 da mv mρ).discrepancy_kg| /
            max (max (max (sb.mass_kg - sa.mass_kg)
              (da.mass_kg - db2.mass_kg))
              ((reconcile_transfer sb sa db2 da mv mρ).metered_mass_kg)) 1 *
            100 := rfl
      rw [this, h]
      norm_num
    · exact absurd h hd
  · rintro ⟨hp, hd⟩
    exact ⟨hp, not_lt.mpr (le_of_lt hd)⟩

/-! ## Heat content (core/physics/energy_balance.py) -/

/-- EnergyBalanceCalculator.SPECIFIC_HEAT_DEFAULTS lookup of
get_specific_heat: truthy product code found in the table (after
uppercasing) selects its value, anything else the DEFAULT 2.00. -/
def get_specific_heat (product_type : Option String) : ℚ :=
  match product_type with
  | some p =>
    if p = "" then 2.00
    else if condUpper p = "PMS" then 2.22
    else if condUpper p = "AGO" then 2.05
    else if condUpper p = "DPK" then 2.10
    else if condUpper p = "LPG" then 2.50
    else if condUpper p = "RFO" then 1.80
    else 2.00
  | none => 2.00

/-- energy_kj of EnergyBalanceCalculator.calculate_tank_heat_content with
the 0 C reference temperature the calculation service constructs it with:
Q = m * Cp * (T - 0). -/
def calculate_tank_heat_content_energy_kj (mass_kg temperature_c : ℚ)
    (product_type : Option String) : ℚ :=
  mass_kg * get_specific_heat product_type * (temperature_c - 0)

/-! ## Calculation orchestrator, per-tank (CalculationService.process_tank)

The slice of the database a single tank's processing reads and writes:
the latest level_mm and temperature sensor readings, the strapping table,
the configured density and product, and the calculated_data rows for this
asset. -/

/-- One calculated_data row for the asset (metric_name, time, value). -/
structure CalcRow where
  metric : String
  time : Int
  value : ℚ
deriving DecidableEq, Repr

structure TankDb where
  latest_level : Option (Int × ℚ)
  latest_temp : Option (Int × ℚ)
  strapping : Option (List (ℚ × ℚ))
  density20 : Option ℚ
  product_service : Option String
  calcRows : List CalcRow
deriving DecidableEq, Repr

/-- database.get_latest_calculated_data: the row of maximal time among the
rows with the given metric (order by time desc, limit 1). -/
def latestCalc (m : String) : List CalcRow → Option (Int × ℚ)
  | [] => none
  | r :: rest =>
    if r.metric = m then
      match latestCalc m rest with
      | none => some (r.time, r.value)
      | some (t, v) => if t < r.time then some (r.time, r.value)
        else some (t, v)
    else latestCalc m rest

/-- database.save_calculated_data: session.merge upserts on the primary key
(time, asset_id, metric_name); for one asset the key is (metric, time). -/
def upsertCalc (rows : List CalcRow) (r : CalcRow) : List CalcRow :=
  if rows.any (fun s => decide (s.metric = r.metric ∧ s.time = r.time)) then
    rows.map (fun s =>
      if s.metric = r.metric ∧ s.time = r.time then r else s)
  else rows ++ [r]

/-- The rows process_tank persists after the unconditional
level_percentage save: volume_gov when a strapping table exists, then
volume_gsv, the mass pair and the heat row behind their own guards (a
falsy density, Python 0.0, aborts the volume chain like a missing one). -/
def processTankVolumes (db : TankDb) (t : Int) (level_mm : ℚ) :
    List CalcRow :=
  match db.strapping with
  | none => []
  | some pts =>
    match calculate_gov_from_strapping (some level_mm) pts with
    | none => []
    | some gov =>
      ⟨"volume_gov", t, gov⟩ ::
      (match db.latest_temp with
       | none => []
       | some tp =>
         match db.density20 with
         | none => []
         | some d =>
           if d = 0 then []
           else
             (match calculate_gsv (some gov) (some tp.2) (some d) with
              | some gsv => [⟨"volume_gsv", t, gsv⟩]
              | none => []) ++
             (let mass := calculate_mass_in_tank (some gov) (some tp.2)
                (some d) db.product_service
              (if 0 < mass.mass_kg then
                [⟨"mass_kg", t, mass.mass_kg⟩,
                 ⟨"density_at_temp", t, mass.density_at_temp_kg_m3⟩]
               else []) ++
              (if 0 < calculate_tank_heat_content_energy_kj mass.mass_kg
                  tp.2 db.product_service then
                [⟨"heat_content_kj", t,
                  calculate_tank_heat_content_energy_kj mass.mass_kg tp.2
                    db.product_service⟩]
               else [])))

/-- Body of process_tank once the idempotency guard has passed: the
level_percentage save (against the fixed 16000 mm max level) always comes
first, then the volume chain. -/
def processTankBody (db : TankDb) (t : Int) (level_mm : ℚ) : List CalcRow :=
  ⟨"level_percentage", t, level_mm / 16000 * 100⟩ ::
    processTankVolumes db t level_mm

/-- CalculationService.process_tank as the list of rows it persists: no
level reading, or a latest derived level_percentage timestamp already at or
beyond the raw timestamp, persists nothing. -/
def processTankSaves (db : TankDb) : List CalcRow :=
  match db.latest_level with
  | none => []
  | some tl =>
    match latestCalc "level_percentage" db.calcRows with
    | some tc => if tl.1 ≤ tc.1 then [] else processTankBody db tl.1 tl.2
    | none => processTankBody db tl.1 tl.2

/-- One run of process_tank over the database slice: each persisted row is
upserted into calculated_data in order. -/
def processTank (db : TankDb) : TankDb :=
  { db with calcRows := (processTankSaves db).foldl upsertCalc db.calcRows }

lemma upsert_has_key (rows : List CalcRow) (r : CalcRow) :
    ∃ s ∈ upsertCalc rows r, s.metric = r.metric ∧ s.time = r.time := by
  unfold upsertCalc
  by_cases hx : rows.any
      (fun s => decide (s.metric = r.metric ∧ s.time = r.time)) = true
  · rw [if_pos hx]
    obtain ⟨s, hs, hkey⟩ := List.any_eq_true.mp hx
    refine ⟨r, ?_, rfl, rfl⟩
    have := List.mem_map_of_mem
      (fun s => if s.metric = r.metric ∧ s.time = r.time then r else s) hs
    simpa [of_decide_eq_true hkey] using this
  · rw [if_neg hx]
    exact ⟨r, by simp, rfl, rfl⟩

lemma upsert_keeps_key (rows : List CalcRow) (r' : CalcRow) (m : String)
    (t : Int) (h : ∃ s ∈ rows, s.metric = m ∧ s.time = t) :
    ∃ s ∈ upsertCalc rows r', s.metric = m ∧ s.time = t := by
  obtain ⟨s, hs, hm, ht⟩ := h
  unfold upsertCalc
  by_cases hx : rows.any
      (fun s => decide (s.metric = r'.metric ∧ s.time = r'.time)) = true
  · rw [if_pos hx]
    by_cases hk : s.metric = r'.metric ∧ s.time = r'.time
    · refine ⟨r', ?_, by rw [← hk.1, hm], by rw [← hk.2, ht]⟩
      have := List.mem_map_of_mem
        (fun s => if s.metric = r'.metric ∧ s.time = r'.time then r' else s)
        hs
      simpa [hk] using this
    · refine ⟨s, ?_, hm, ht⟩
      have := List.mem_map_of_mem
        (fun s => if s.metric = r'.metric ∧ s.time = r'.time then r' else s)
        hs
      simpa [hk] using this
  · rw [if_neg hx]
    exact ⟨s, List.mem_append_left _ hs, hm, ht⟩

lemma foldl_upsert_key (m : String) (t : Int) :
    ∀ (saves rows : List CalcRow),
      ((∃ r ∈ saves, r.metric = m ∧ r.time = t) ∨
        (∃ s ∈ rows, s.metric = m ∧ s.time = t)) →
      ∃ s ∈ saves.foldl upsertCalc rows, s.metric = m ∧ s.time = t := by
  intro saves
  induction saves with
  | nil =>
    intro rows h
    rcases h with h | h
    · obtain ⟨r, hr, _⟩ := h
      cases hr
    · simpa using h
  | cons r rest ih =>
    intro rows h
    rw [List.foldl_cons]
    rcases h with h | h
    · obtain ⟨r', hr', hm, ht⟩ := h
      rcases List.mem_cons.mp hr' with heq | hmem
      · subst heq
        exact ih _ (Or.inr (by
          have := upsert_has_key rows r'
          obtain ⟨s, hs, h1, h2⟩ := this
          exact ⟨s, hs, by rw [h1, hm], by rw [h2, ht]⟩))
      · exact ih _ (Or.inl ⟨r', hmem, hm, ht⟩)
    · exact ih _ (Or.inr (upsert_keeps_key rows r m t h))

lemma latestCalc_ge (m : String) (t : Int) :
    ∀ rows : List CalcRow, (∃ s ∈ rows, s.metric = m ∧ s.time = t) →
      ∃ p : Int × ℚ, latestCalc m rows = some p ∧ t ≤ p.1 := by
  intro rows
  induction rows with
  | nil =>
    rintro ⟨s, hs, _⟩
    cases hs
  | cons r rest ih =>
    rintro ⟨s, hs, hm, ht⟩
    rcases List.mem_cons.mp hs with heq | hmem
    · subst heq
      unfold latestCalc
      rw [if_pos hm]
      cases hrec : latestCalc m rest with
      | none => exact ⟨(s.time, s.value), rfl, le_of_eq ht.symm⟩
      | some p =>
        by_cases hlt : p.1 < s.time
        · exact ⟨(s.time, s.value), by simp [hlt], le_of_eq ht.symm⟩
        · exact ⟨p, by simp [hlt], by omega⟩
    · obtain ⟨p, hp, hle⟩ := ih ⟨s, hmem, hm, ht⟩
      unfold latestCalc
      by_cases hm2 : r.metric = m
      · rw [if_pos hm2, hp]
        by_cases hlt : p.1 < r.time
        · exact ⟨(r.time, r.value), by simp [hlt], by omega⟩
        · exact ⟨p, by simp [hlt], hle⟩
      · rw [if_neg hm2]
        exact ⟨p, hp, hle⟩

lemma processTankSaves_skip (db : TankDb) (t : Int) (v : ℚ) (p : Int × ℚ)
    (hl : db.latest_level = some (t, v))
    (hc : latestCalc "level_percentage" db.calcRows = some p)
    (hge : t ≤ p.1) :
    processTankSaves db = [] := by
  simp [processTankSaves, hl, hc, hge]

/-- C2.  One run of process_tank makes the next run a no-op: whenever a
level reading exists, running process_tank and then asking again for the
rows to persist yields the empty list, because the second run's idempotency
guard finds a persisted level_percentage timestamp at or beyond the raw
timestamp; and whenever that guard condition already holds, process_tank
persists nothing at all. -/
theorem C2_process_tank_idempotent :
    (∀ (db : TankDb) (t : Int) (v : ℚ), db.latest_level = some (t, v) →
      processTankSaves (processTank db) = []) ∧
    (∀ (db : TankDb) (t : Int) (v : ℚ) (p : Int × ℚ),
      db.latest_level = some (t, v) →
      latestCalc "level_percentage" db.calcRows = some p →
      t ≤ p.1 →
      processTankSaves db = []) := by
  constructor
  · intro db t v hl
    by_cases hempty : processTankSaves db = []
    · have hfix : processTank db = db := by
        simp [processTank, hempty]
      rw [hfix]
      exact hempty
    · have hbody : processTankSaves db = processTankBody db t v := by
        rcases hc : latestCalc "level_percentage" db.calcRows with _ | p
        · simp [processTankSaves, hl, hc]
        · rcases le_or_lt t p.1 with hge | hge
          · exact absurd (by simp [processTankSaves, hl, hc, hge]) hempty
          · simp [processTankSaves, hl, hc, not_le.mpr hge]
      have hmem : ∃ r ∈ processTankSaves db,
          r.metric = "level_percentage" ∧ r.time = t := by
        rw [hbody]
        exact ⟨⟨"level_percentage", t, v / 16000 * 100⟩,
          List.mem_cons_self _ _, rfl, rfl⟩
      have hkey := foldl_upsert_key "level_percentage" t
        (processTankSaves db) db.calcRows (Or.inl hmem)
      obtain ⟨p, hp, hple⟩ := latestCalc_ge "level_percentage" t _ hkey
      exact processTankSaves_skip (processTank db) t v p
        (by simpa [processTank] using hl) (by simpa [processTank] using hp)
        hple
  · intro db t v p hl hc hge
    exact processTankSaves_skip db t v p hl hc hge

/-- Database slice used for the C2 witness: a level reading at time 5 and
no derived rows yet. -/
def c2db : TankDb :=
  ⟨some (5, 8000), some (5, 25), some [(0, 0), (16000, 1000000)], some 850,
    some "AGO", []⟩

/-- Concrete instance of C2: after one run on the time-5 level reading the
second run persists nothing, and with an already-newer derived
level_percentage row the first run persists nothing. -/
theorem C2_process_tank_idempotent_witness :
    processTankSaves (processTank c2db) = [] ∧
    processTankSaves
      { c2db with calcRows := [⟨"level_percentage", 9, 50⟩] } = [] :=
  ⟨C2_process_tank_idempotent.1 c2db 5 8000 rfl,
   C2_process_tank_idempotent.2
     { c2db with calcRows := [⟨"level_percentage", 9, 50⟩] } 5 8000 (9, 50)
     rfl rfl (by norm_num)⟩

/-! ## C10: missing mass inputs and the persistence guard -/

/-- The persistence guard of process_tank for the mass metric: the result
is saved only when mass_kg is strictly positive. -/
def mass_persist_guard (m : MassResult) : Bool := decide (0 < m.mass_kg)

lemma volumes_mass_pos (db : TankDb) (t : Int) (v : ℚ) :
    ∀ r ∈ processTankVolumes db t v, r.metric = "mass_kg" →
      0 < r.value := by
  intro r hr hm
  unfold processTankVolumes at hr
  rcases hs : db.strapping with _ | pts
  · simp [hs] at hr
  simp only [hs] at hr
  rcases hg : calculate_gov_from_strapping (some v) pts with _ | gov
  · simp [hg] at hr
  simp only [hg] at hr
  rcases List.mem_cons.mp hr with heq | hr
  · rw [heq] at hm
    simp at hm
  rcases htp : db.latest_temp with _ | tp
  · simp [htp] at hr
  simp only [htp] at hr
  rcases hd : db.density20 with _ | d
  · simp [hd] at hr
  simp only [hd] at hr
  by_cases hd0 : d = 0
  · simp [hd0] at hr
  simp only [hd0, if_false] at hr
  simp only [List.mem_append] at hr
  rcases hr with hr | hr | hr
  · rcases hgsv : calculate_gsv (some gov) (some tp.2) (some d) with _ | g2
    · simp [hgsv] at hr
    · simp only [hgsv, List.mem_singleton] at hr
      rw [hr] at hm
      simp at hm
  · by_cases hmp : 0 < (calculate_mass_in_tank (some gov) (some tp.2)
        (some d) db.product_service).mass_kg
    · rw [if_pos hmp] at hr
      rcases List.mem_cons.mp hr with heq | hr
      · rw [heq]
        exact hmp
      · rw [List.mem_singleton] at hr
        rw [hr] at hm
        simp at hm
    · rw [if_neg hmp] at hr
      cases hr
  · by_cases hh : 0 < calculate_tank_heat_content_energy_kj
        (calculate_mass_in_tank (some gov) (some tp.2) (some d)
          db.product_service).mass_kg tp.2 db.product_service
    · rw [if_pos hh, List.mem_singleton] at hr
      rw [hr] at hm
      simp at hm
    · rw [if_neg hh] at hr
      cases hr

lemma body_mass_pos (db : TankDb) (t : Int) (v : ℚ) :
    ∀ r ∈ processTankBody db t v, r.metric = "mass_kg" → 0 < r.value := by
  intro r hr hm
  rcases List.mem_cons.mp hr with heq | hr2
  · rw [heq] at hm
    simp at hm
  · exact volumes_mass_pos db t v r hr2 hm

lemma saves_mass_pos (db : TankDb) :
    ∀ r ∈ processTankSaves db, r.metric = "mass_kg" → 0 < r.value := by
  intro r hr hm
  rcases hl : db.latest_level with _ | tl
  · simp [processTankSaves, hl] at hr
  rcases hc : latestCalc "level_percentage" db.calcRows with _ | tc
  · simp only [processTankSaves, hl, hc] at hr
    exact body_mass_pos db tl.1 tl.2 r hr hm
  · by_cases hge : tl.1 ≤ tc.1
    · simp [processTankSaves, hl, hc, hge] at hr
    · simp only [processTankSaves, hl, hc, hge, if_false] at hr
      exact body_mass_pos db tl.1 tl.2 r hr hm

/-- C10.  With any of its three inputs missing, calculate_mass_in_tank does
not fail: it returns a MassResult with mass 0.0 and 0.0 substituted for
each missing field, which the orchestrator's strictly-positive guard then
keeps out of storage; a genuine zero-volume (empty tank) reading also
yields mass 0 and is equally never persisted, and indeed every mass_kg row
process_tank ever persists carries a strictly positive value. -/
theorem C10_missing_inputs_mass_zero :
    (∀ (gov temp d20 : Option ℚ) (product : Option String),
      gov = none ∨ temp = none ∨ d20 = none →
      calculate_mass_in_tank gov temp d20 product =
        ⟨0, gov.getD 0, 0, temp.getD 0, d20.getD 0, product⟩ ∧
      mass_persist_guard (calculate_mass_in_tank gov temp d20 product) =
        false) ∧
    (∀ (T d : ℚ) (product : Option String),
      (calculate_mass_in_tank (some 0) (some T) (some d) product).mass_kg =
        0 ∧
      mass_persist_guard
        (calculate_mass_in_tank (some 0) (some T) (some d) product) =
        false) ∧
    (∀ (db : TankDb) (r : CalcRow), r ∈ processTankSaves db →
      r.metric = "mass_kg" → 0 < r.value) := by
  refine ⟨?_, ?_, saves_mass_pos⟩
  · intro gov temp d20 product h
    rcases gov with _ | g <;> rcases temp with _ | T <;> rcases d20 with _ | d <;>
      first
        | exact ⟨rfl, rfl⟩
        | (exfalso; simp at h)
  · intro T d product
    constructor
    · simp [calculate_mass_in_tank, calculate_mass_from_volume]
    · simp [mass_persist_guard, calculate_mass_in_tank,
        calculate_mass_from_volume]

/-- Database slice for the C10 witness: level 8000 mm at time 5, strapping
up to 16000 L, density 1000, no product code. -/
def c10db : TankDb :=
  ⟨some (5, 8000), some (5, 25), some [(0, 0), (16000, 16000)], some 1000,
    none, []⟩

/-- Concrete instance of C10: a missing volume yields the zero MassResult
and a false guard; a zero volume yields zero mass; and the mass row that
process_tank persists for c10db carries the positive value 7962. -/
theorem C10_missing_inputs_mass_zero_witness :
    calculate_mass_in_tank none (some 25) (some 850) none =
      ⟨0, 0, 0, 25, 850, none⟩ ∧
    mass_persist_guard
      (calculate_mass_in_tank none (some 25) (some 850) none) = false ∧
    (calculate_mass_in_tank (some 0) (some 25) (some 850) none).mass_kg =
      0 ∧
    (0 : ℚ) < (⟨"mass_kg", 5, 7962⟩ : CalcRow).value := by
  have hmem : (⟨"mass_kg", 5, 7962⟩ : CalcRow) ∈ processTankSaves c10db := by
    norm_num [processTankSaves, processTankBody, processTankVolumes,
      latestCalc, c10db, calculate_gov_from_strapping, interp,
      calculate_gsv, get_vcf, calculate_mass_in_tank,
      calculate_density_at_temperature, get_product_beta,
      calculate_mass_from_volume, calculate_tank_heat_content_energy_kj,
      get_specific_heat, List.mem_cons]
  exact ⟨(C10_missing_inputs_mass_zero.1 none (some 25) (some 850) none
      (Or.inl rfl)).1,
    (C10_missing_inputs_mass_zero.1 none (some 25) (some 850) none
      (Or.inl rfl)).2,
    (C10_missing_inputs_mass_zero.2.1 25 850 none).1,
    C10_missing_inputs_mass_zero.2.2 c10db ⟨"mass_kg", 5, 7962⟩ hmem rfl⟩

end DigitalTwin
